import Mathlib

/-!
Shallow embedding of `api.py`: a FastAPI gateway with three endpoints
(`/parse/image`, `/parse/pdf`, `/parse/file`) that validate an upload, stage it
in temporary directories, invoke an external OCR engine, assemble per-page
layout JSON into a response, and tear the workspace down.

The handlers are deterministic functions of the request (the uploaded file and
the two query parameters) and of an environment `OsEnv` that fixes the outcome
of every external interaction of the request: the behaviour of the engine call,
the contents of layout-info files on disk, and whether the fallible OS calls
(the write of the upload copy, `os.remove`) succeed.  Python exceptions are
modelled with an `Except` layer over explicit world state; Python's
`try/except/finally` semantics (the `finally` clause runs on every exit and an
exception it raises supersedes the pending result) is `tryFinally` below.

`tempfile.mkdtemp` returns a fresh directory, so the per-request scratch paths
cannot alias each other or anything pre-existing; the filesystem state of one
request is therefore represented structurally (`FsState`): a liveness bit for
the input temp directory, for the upload copy inside it, and for the output
directory, plus the list of (distinct) file names currently in the output
directory.  Paths that can appear as layout-info references are `FPath`.
-/

namespace DotsApi

/-- JSON values, the possible results of `json.load`. -/
inductive JsonVal where
  | null : JsonVal
  | bool (b : Bool) : JsonVal
  | num (n : Int) : JsonVal
  | str (s : String) : JsonVal
  | arr (xs : List JsonVal) : JsonVal
  | obj (fields : List (String × JsonVal)) : JsonVal

/-- The empty JSON object `{}`, the default `full_layout_info`. -/
def emptyObj : JsonVal := JsonVal.obj []

/-- A filesystem path as visible to one request: the upload copy
`temp_dir/upload_<uuid><ext>`, a file `name` inside the request's output
directory, or any other (external) path.  The two `mkdtemp` directories are
fresh, so these are pairwise distinct locations. -/
inductive FPath where
  | tempFile : FPath
  | outFile (name : String) : FPath
  | other (s : String) : FPath
deriving DecidableEq

/-- Filesystem state owned by one request (see module comment). -/
structure FsState where
  tempDirLive : Bool
  tempFileLive : Bool
  outDirLive : Bool
  outFiles : List String
deriving DecidableEq

/-- World state threaded through a handler: the scratch filesystem, the number
of engine invocations so far, and the read position of the uploaded file
object (Python `UploadFile` keeps a cursor; `seek(0)` resets it). -/
structure World where
  fs : FsState
  parserCalls : Nat
  filePos : Nat
deriving DecidableEq

/-- A Python exception as far as the handlers can observe one: either a
`fastapi.HTTPException` (status code and detail) or any other exception
carrying its message. -/
inductive PyErr where
  | http (status : Nat) (detail : String) : PyErr
  | exc (msg : String) : PyErr
deriving DecidableEq

/-- Python `str(e)`.  Starlette's `HTTPException.__str__` renders
`f"{self.status_code}: {self.detail}"`; for other exceptions the message. -/
def strOf : PyErr → String
  | PyErr.http s d => toString s ++ ": " ++ d
  | PyErr.exc m => m

/-- The handler monad: state (`World`) with Python-style exceptions.  State
changes made before an exception persist, as in Python. -/
def M (α : Type) : Type := World → Except PyErr α × World

instance : Monad M where
  pure a := fun w => (Except.ok a, w)
  bind x f := fun w =>
    match x w with
    | (Except.ok a, w1) => f a w1
    | (Except.error e, w1) => (Except.error e, w1)

/-- Python `raise e`. -/
def raiseE {α : Type} (e : PyErr) : M α := fun w => (Except.error e, w)

/-- Python `try: body except Exception as e: handler e` (the source only ever uses
bare `except Exception`, which catches every model exception). -/
def tryCatch {α : Type} (body : M α) (handler : PyErr → M α) : M α := fun w =>
  match body w with
  | (Except.ok a, w1) => (Except.ok a, w1)
  | (Except.error e, w1) => handler e w1

/-- Python `try: body finally: fin`: `fin` runs on both exits of `body`, and an
exception raised by `fin` supersedes `body`'s pending result or exception. -/
def tryFinally {α : Type} (body : M α) (fin : M Unit) : M α := fun w =>
  match body w with
  | (Except.ok a, w1) =>
    match fin w1 with
    | (Except.ok _, w2) => (Except.ok a, w2)
    | (Except.error e2, w2) => (Except.error e2, w2)
  | (Except.error e, w1) =>
    match fin w1 with
    | (Except.ok _, w2) => (Except.error e, w2)
    | (Except.error e2, w2) => (Except.error e2, w2)

/-- The uploaded file: `UploadFile.filename` (None is possible) and the bytes
of its body. -/
structure Upload where
  filename : Option String
  content : List Nat
deriving DecidableEq

/-- Models `await file.read()`: returns the bytes from the current cursor to the end
and leaves the cursor at the end. -/
def readF (u : Upload) : M (List Nat) := fun w =>
  (Except.ok (u.content.drop w.filePos), { w with filePos := u.content.length })

/-- Models `await file.seek(0)`. -/
def seek0 : M Unit := fun w => (Except.ok (), { w with filePos := 0 })

/-- Content of a layout-info file: a JSON document, or bytes on which
`json.load` (or the `open` itself) raises. -/
inductive LayoutFile where
  | invalid (msg : String) : LayoutFile
  | json (v : JsonVal) : LayoutFile

/-- Outcome of writing the upload copy (`open(temp_path, "wb")` + `write`):
success, an OS error, or a write that reports success while the file does not
subsequently exist (the defensive `os.path.exists` branch of the source). -/
inductive WriteOutcome where
  | ok : WriteOutcome
  | raisesWith (msg : String) : WriteOutcome
  | silentLoss : WriteOutcome
deriving DecidableEq

/-- One per-page descriptor returned by the engine: `result.get(key)` yields
`None` when the key is absent, hence the `Option`s. -/
structure PageResult where
  layout_info_path : Option FPath
  page_no : Option Int
deriving DecidableEq

/-- Behaviour of the engine entry point (`dots_parser.parse_image` /
`dots_parser.parse_pdf`) on this request: raise, or return descriptors. -/
inductive EngineResult where
  | raises (msg : String) : EngineResult
  | returns (descs : List PageResult) : EngineResult

/-- Environment of one request: outcomes of every external interaction. -/
structure OsEnv where
  /-- name `mkdtemp` gives the input temp directory (only used in messages) -/
  tempDirName : String
  /-- the `uuid.uuid4().hex` token in the upload copy's name -/
  uuidHex : String
  /-- outcome of writing the upload copy -/
  writeOutcome : WriteOutcome
  /-- behaviour of the engine call -/
  engine : EngineResult
  /-- names of the files the engine leaves in the output directory -/
  engineFiles : List String
  /-- contents of layout-info files (consulted only for existing paths) -/
  layoutContent : FPath → LayoutFile
  /-- external paths that exist on disk (never created or removed here) -/
  externalFiles : List String
  /-- whether `os.remove` succeeds on an existing path -/
  removeOk : FPath → Bool
  /-- message of the exception `os.remove` raises when it fails -/
  removeErrMsg : FPath → String

/-- Models `os.path.exists` for a given filesystem state. -/
def existsIn (env : OsEnv) (fs : FsState) : FPath → Bool
  | FPath.tempFile => fs.tempFileLive
  | FPath.outFile n => fs.outDirLive && fs.outFiles.contains n
  | FPath.other s => env.externalFiles.contains s

def osExists (env : OsEnv) (p : FPath) : M Bool := fun w =>
  (Except.ok (existsIn env w.fs p), w)

def osExistsTempDir : M Bool := fun w => (Except.ok w.fs.tempDirLive, w)

def osExistsOutDir : M Bool := fun w => (Except.ok w.fs.outDirLive, w)

/-- Models `tempfile.mkdtemp()` for the input directory: a fresh empty directory. -/
def osMkTempDir : M Unit := fun w =>
  (Except.ok (), { w with fs := { w.fs with tempDirLive := true, tempFileLive := false } })

/-- Models `tempfile.mkdtemp()` for the output directory: a fresh empty directory. -/
def osMkOutDir : M Unit := fun w =>
  (Except.ok (), { w with fs := { w.fs with outDirLive := true, outFiles := [] } })

/-- Writing the uploaded bytes to `temp_path`, per the environment. -/
def osWriteUpload (env : OsEnv) : M Unit :=
  match env.writeOutcome with
  | WriteOutcome.ok => fun w =>
      (Except.ok (), { w with fs := { w.fs with tempFileLive := true } })
  | WriteOutcome.raisesWith m => raiseE (PyErr.exc m)
  | WriteOutcome.silentLoss => fun w => (Except.ok (), w)

/-- Models `os.remove`: `FileNotFoundError` on a missing path; may fail per the
environment; external paths are read-only here (the handlers never remove
one, so the state is unchanged on that dead branch). -/
def osRemove (env : OsEnv) (p : FPath) : M Unit := fun w =>
  if existsIn env w.fs p then
    if env.removeOk p then
      match p with
      | FPath.tempFile =>
        (Except.ok (), { w with fs := { w.fs with tempFileLive := false } })
      | FPath.outFile n =>
        (Except.ok (), { w with fs := { w.fs with outFiles := w.fs.outFiles.erase n } })
      | FPath.other _ => (Except.ok (), w)
    else (Except.error (PyErr.exc (env.removeErrMsg p)), w)
  else (Except.error (PyErr.exc "No such file or directory"), w)

/-- Models `os.rmdir(temp_dir)`: fails on a missing or non-empty directory. -/
def osRmdirTempDir : M Unit := fun w =>
  if w.fs.tempDirLive then
    if w.fs.tempFileLive then (Except.error (PyErr.exc "Directory not empty"), w)
    else (Except.ok (), { w with fs := { w.fs with tempDirLive := false } })
  else (Except.error (PyErr.exc "No such file or directory"), w)

/-- Models `os.rmdir(output_dir)`. -/
def osRmdirOutDir : M Unit := fun w =>
  if w.fs.outDirLive then
    if w.fs.outFiles.isEmpty then
      (Except.ok (), { w with fs := { w.fs with outDirLive := false } })
    else (Except.error (PyErr.exc "Directory not empty"), w)
  else (Except.error (PyErr.exc "No such file or directory"), w)

/-- Models `os.listdir(output_dir)`. -/
def osListOut : M (List String) := fun w =>
  if w.fs.outDirLive then (Except.ok w.fs.outFiles, w)
  else (Except.error (PyErr.exc "No such file or directory"), w)

/-- The engine call (`dots_parser.parse_image` / `dots_parser.parse_pdf`):
records the invocation, materialises the engine's output files (names in a
directory are unique, hence `dedup`), then returns or raises per the
environment.  `prompt_mode` and `fitz_preprocess` are passed through to the
engine and do not otherwise influence the gateway. -/
def callEngine (env : OsEnv) : M (List PageResult) := fun w =>
  let w1 := { w with
    parserCalls := w.parserCalls + 1,
    fs := { w.fs with outFiles := (w.fs.outFiles ++ env.engineFiles).dedup } }
  match env.engine with
  | EngineResult.raises m => (Except.error (PyErr.exc m), w1)
  | EngineResult.returns ds => (Except.ok ds, w1)

/-! ### Filename handling (`pathlib.Path(filename).suffix.lower()`) -/

/-- Split a character list at `'/'` (accumulator holds the current component
reversed). -/
def splitSlashAux : List Char → List Char → List (List Char)
  | [], acc => [acc.reverse]
  | c :: cs, acc =>
    if c = '/' then acc.reverse :: splitSlashAux cs []
    else splitSlashAux cs (c :: acc)

/-- Models `PurePosixPath(s).name`: the last path component, with empty and `"."`
components dropped. -/
def pathNameChars (s : String) : List Char :=
  match ((splitSlashAux s.data []).filter
      (fun c => c ≠ [] && c ≠ ['.'])).getLast? with
  | some c => c
  | none => []

/-- Index of the last occurrence of `c`, if any. -/
def lastIdxOf (c : Char) : List Char → Option Nat
  | [] => none
  | x :: xs =>
    match lastIdxOf c xs with
    | some i => some (i + 1)
    | none => if x = c then some 0 else none

/-- Models `PurePosixPath(s).suffix`: from the last dot of the name, when that dot is
neither the first nor the last character of the name. -/
def pathSuffix (s : String) : String :=
  let nm := pathNameChars s
  match lastIdxOf '.' nm with
  | some i => if 0 < i ∧ i < nm.length - 1 then String.mk (nm.drop i) else ""
  | none => ""

/-- Models `Path(file.filename).suffix.lower()`. -/
def extOfName (nm : String) : String :=
  String.mk ((pathSuffix nm).data.map Char.toLower)

/-- Python truthiness of `file.filename` being falsy (`None` or `""`). -/
def falsyName : Option String → Bool
  | none => true
  | some s => s.isEmpty

/-- allow-list of the image endpoint -/
def imageExts : List String := [".jpg", ".jpeg", ".png"]

/-- Python truthiness of the `layout_info_path` value
(`if layout_info_path and ...`): `None` and `""` are falsy. -/
def pathTruthy : FPath → Bool
  | FPath.other s => !s.isEmpty
  | _ => true

/-! ### Response shape -/

/-- One entry of `results`. -/
structure PageOut where
  page_no : Option Int
  full_layout_info : JsonVal

/-- The success payload `{success, total_pages, results}`. -/
structure OkBody where
  success : Bool
  total_pages : Nat
  results : List PageOut

/-- What the client receives: a 200 JSON body, or `{detail}` with a status. -/
inductive Response where
  | ok (body : OkBody) : Response
  | err (status : Nat) (detail : String) : Response

/-! ### The handlers (api.py lines 31-260) -/

/-- Lines 107-116 and 193-201: read one descriptor's layout-info file,
substituting `{}` when the path is falsy, the file does not exist, or
reading/parsing raises. -/
def readLayout (env : OsEnv) (r : PageResult) : M JsonVal := do
  match r.layout_info_path with
  | some p =>
    if pathTruthy p then do
      let ex ← osExists env p
      if ex then
        match env.layoutContent p with
        | LayoutFile.invalid _ => pure emptyObj
        | LayoutFile.json v => pure v
      else pure emptyObj
    else pure emptyObj
  | none => pure emptyObj

/-- Lines 124-132 and 214-222: the `finally` block removing the upload copy,
the input temp directory, the output directory's files, then the directory. -/
def cleanup (env : OsEnv) : M Unit := do
  let e1 ← osExists env FPath.tempFile
  if e1 then osRemove env FPath.tempFile else pure ()
  let e2 ← osExistsTempDir
  if e2 then osRmdirTempDir else pure ()
  let e3 ← osExistsOutDir
  if e3 then do
    let names ← osListOut
    names.forM (fun n => osRemove env (FPath.outFile n))
    osRmdirOutDir
  else pure ()

/-- Lines 37-141: body of the `/parse/image` handler inside its outer `try`.
The `isinstance` guard of line 67 cannot fire (`temp_path` is a `str`), and
the `TypeError` branch of line 46 cannot fire once the filename is a string;
neither is a reachable raise. -/
def parse_image_body (env : OsEnv) (file : Option Upload) (pm : String)
    (fp : Bool) : M OkBody := do
  match file with
  | none => raiseE (PyErr.http 400 "No file uploaded")
  | some u => do
    if falsyName u.filename then raiseE (PyErr.http 400 "Missing filename")
    let file_ext := extOfName (u.filename.getD "")
    if !(imageExts.contains file_ext) then
      raiseE (PyErr.http 400 "Invalid image format. Supported: .jpg, .jpeg, .png")
    let file_content ← readF u
    if file_content.isEmpty then raiseE (PyErr.http 400 "Uploaded file is empty")
    seek0
    osMkTempDir
    let _bytes ← readF u
    osWriteUpload env
    let ex1 ← osExists env FPath.tempFile
    if !ex1 then raiseE (PyErr.http 500 "Failed to create temp file")
    let ex2 ← osExists env FPath.tempFile
    if !ex2 then
      raiseE (PyErr.http 500
        ("Temp file not found at " ++ env.tempDirName ++ "/upload_" ++
          env.uuidHex ++ file_ext))
    osMkOutDir
    let pre ← osListOut
    pre.forM (fun n => osRemove env (FPath.outFile n))
    let pair ←
      tryFinally
        (tryCatch
          (do
            let results ← callEngine env
            let result ←
              match results with
              | [] => raiseE (PyErr.exc "list index out of range")
              | r :: _ => pure r
            let full ← readLayout env result
            pure (results, full))
          (fun e => raiseE (PyErr.http 500 ("Parser error: " ++ strOf e))))
        (cleanup env)
    pure { success := true, total_pages := pair.1.length,
           results := [{ page_no := some 0, full_layout_info := pair.2 }] }

/-- Lines 31-144: the `/parse/image` handler; the outer
`except Exception as e: raise HTTPException(500, str(e))` also catches the
`HTTPException`s raised by the body. -/
def parse_image (env : OsEnv) (file : Option Upload) (pm : String)
    (fp : Bool) : M OkBody :=
  tryCatch (parse_image_body env file pm fp)
    (fun e => raiseE (PyErr.http 500 (strOf e)))

/-- Lines 153-222: body of the `/parse/pdf` handler inside its outer `try`.
The inner `try` of lines 182-222 has a `finally` and no `except`; the `return`
of line 208 is inside it. -/
def parse_pdf_body (env : OsEnv) (file : Option Upload) (pm : String)
    (fp : Bool) : M OkBody := do
  match file with
  | none => raiseE (PyErr.http 400 "No file uploaded")
  | some u => do
    if falsyName u.filename then raiseE (PyErr.http 400 "Missing filename")
    if extOfName (u.filename.getD "") ≠ ".pdf" then
      raiseE (PyErr.http 400 "Invalid PDF format. Only .pdf files accepted")
    let file_content ← readF u
    if file_content.isEmpty then raiseE (PyErr.http 400 "Uploaded file is empty")
    seek0
    osMkTempDir
    let _bytes ← readF u
    osWriteUpload env
    osMkOutDir
    let pre ← osListOut
    pre.forM (fun n => osRemove env (FPath.outFile n))
    tryFinally
      (do
        let results ← callEngine env
        let formatted ← results.foldlM
          (fun acc r => do
            let fli ← readLayout env r
            pure (acc ++ [{ page_no := r.page_no, full_layout_info := fli }]))
          ([] : List PageOut)
        pure { success := true, total_pages := results.length,
               results := formatted })
      (cleanup env)

/-- Lines 147-225: the `/parse/pdf` handler with its outer catch-all. -/
def parse_pdf (env : OsEnv) (file : Option Upload) (pm : String)
    (fp : Bool) : M OkBody :=
  tryCatch (parse_pdf_body env file pm fp)
    (fun e => raiseE (PyErr.http 500 (strOf e)))

/-- Lines 234-257: body of the `/parse/file` dispatcher inside its outer
`try`; it forwards the same `UploadFile` object (with the cursor reset) to the
sibling handler, i.e. to the decorated function including its catch-all. -/
def parse_file_body (env : OsEnv) (file : Option Upload) (pm : String)
    (fp : Bool) : M OkBody := do
  match file with
  | none => raiseE (PyErr.http 400 "No file uploaded")
  | some u => do
    if falsyName u.filename then raiseE (PyErr.http 400 "Missing filename")
    let file_ext := extOfName (u.filename.getD "")
    let file_content ← readF u
    if file_content.isEmpty then raiseE (PyErr.http 400 "Uploaded file is empty")
    seek0
    if file_ext = ".pdf" then parse_pdf env file pm fp
    else if imageExts.contains file_ext then parse_image env file pm fp
    else raiseE (PyErr.http 400 "Unsupported file format")

/-- Lines 228-260: the `/parse/file` handler with its outer catch-all. -/
def parse_file (env : OsEnv) (file : Option Upload) (pm : String)
    (fp : Bool) : M OkBody :=
  tryCatch (parse_file_body env file pm fp)
    (fun e => raiseE (PyErr.http 500 (strOf e)))

/-- Filesystem state before (and, when cleanup works, after) a request. -/
def initFs : FsState :=
  { tempDirLive := false, tempFileLive := false, outDirLive := false,
    outFiles := [] }

def initWorld : World := { fs := initFs, parserCalls := 0, filePos := 0 }

/-- FastAPI boundary: a returned dict becomes a 200 response; a raised
`HTTPException` becomes a response with its status and detail; any other
escaping exception would become a bare 500 (unreachable here, every handler
ends in a catch-all converting to `HTTPException`). -/
def runRoute (h : M OkBody) : Response × World :=
  match h initWorld with
  | (Except.ok b, w) => (Response.ok b, w)
  | (Except.error (PyErr.http s d), w) => (Response.err s d, w)
  | (Except.error (PyErr.exc _), w) => (Response.err 500 "Internal Server Error", w)

/-- Route `POST /parse/image`. -/
def parseImageRoute (env : OsEnv) (file : Option Upload) (pm : String)
    (fp : Bool) : Response × World :=
  runRoute (parse_image env file pm fp)

/-- Route `POST /parse/pdf`. -/
def parsePdfRoute (env : OsEnv) (file : Option Upload) (pm : String)
    (fp : Bool) : Response × World :=
  runRoute (parse_pdf env file pm fp)

/-- Route `POST /parse/file`. -/
def parseFileRoute (env : OsEnv) (file : Option Upload) (pm : String)
    (fp : Bool) : Response × World :=
  runRoute (parse_file env file pm fp)

/-- Nominal environment: staging and cleanup OS calls succeed. -/
def nomEnv (eng : EngineResult) (efs : List String)
    (lay : FPath → LayoutFile) (exf : List String) : OsEnv :=
  { tempDirName := "/tmp/in", uuidHex := "deadbeef",
    writeOutcome := WriteOutcome.ok, engine := eng, engineFiles := efs,
    layoutContent := lay, externalFiles := exf,
    removeOk := fun _ => true, removeErrMsg := fun _ => "" }

/-- Pure result of the layout-info read at a given filesystem state. -/
def lookupLayout (env : OsEnv) (fs : FsState) (d : PageResult) : JsonVal :=
  match d.layout_info_path with
  | none => emptyObj
  | some p =>
    if pathTruthy p then
      if existsIn env fs p then
        match env.layoutContent p with
        | LayoutFile.invalid _ => emptyObj
        | LayoutFile.json v => v
      else emptyObj
    else emptyObj

/-- The scratch filesystem right after the engine call. -/
def stagedFs (efs : List String) : FsState :=
  ⟨true, true, true, efs.dedup⟩

/-- Closed form of a pdf-endpoint run in a nominal environment. -/
def pdfOutcome (eng : EngineResult) (efs : List String)
    (lay : FPath → LayoutFile) (exf : List String) : Except PyErr OkBody :=
  match eng with
  | EngineResult.raises m => Except.error (PyErr.http 500 m)
  | EngineResult.returns ds =>
    Except.ok ⟨true, ds.length, ds.map (fun r =>
      (⟨r.page_no, lookupLayout (nomEnv eng efs lay exf) (stagedFs efs) r⟩ : PageOut))⟩

/-- Closed form of an image-endpoint run in a nominal environment. -/
def imageOutcome (eng : EngineResult) (efs : List String)
    (lay : FPath → LayoutFile) (exf : List String) : Except PyErr OkBody :=
  match eng with
  | EngineResult.raises m =>
    Except.error (PyErr.http 500 ("500: Parser error: " ++ m))
  | EngineResult.returns [] =>
    Except.error (PyErr.http 500 "500: Parser error: list index out of range")
  | EngineResult.returns (d :: t) =>
    Except.ok ⟨true, (d :: t).length,
      [(⟨some 0, lookupLayout (nomEnv eng efs lay exf) (stagedFs efs) d⟩ : PageOut)]⟩

/-- Default value of the `prompt_mode` parameter. -/
def defaultPm : String := "prompt_layout_all_en"

/-- Environment piece making all layout files unreadable. -/
def probeLay : FPath → LayoutFile := fun _ => LayoutFile.invalid "bad"

/-- Nominal environment with an engine that raises. -/
def envProbe : OsEnv := nomEnv (EngineResult.raises "probe") [] probeLay []

/-- Environment where writing the upload copy fails (for instance, disk full). -/
def envWriteFail : OsEnv :=
  { envProbe with writeOutcome := WriteOutcome.raisesWith "No space left on device" }

/-- One engine descriptor pointing at a valid layout file in the output dir. -/
def descOut : PageResult := ⟨some (FPath.outFile "res.json"), some 0⟩

def layJson : FPath → LayoutFile := fun _ => LayoutFile.json (JsonVal.obj [])

/-- Nominal environment for a one-page pdf run that succeeds. -/
def envPdfOk : OsEnv := nomEnv (EngineResult.returns [descOut]) ["res.json"] layJson []

/-- Same run, but `os.remove` fails on the output file during cleanup. -/
def envPdfRmFail (msg : String) : OsEnv :=
  { envPdfOk with
    removeOk := fun p => match p with
      | FPath.outFile _ => false
      | _ => true,
    removeErrMsg := fun _ => msg }

def envImg2 : OsEnv :=
  nomEnv (EngineResult.returns [⟨none, some 0⟩, ⟨none, some 1⟩]) [] probeLay []

/-- Entry `i` of the `results` array of a response. -/
def respPage (r : Response) (i : Nat) : Option PageOut :=
  match r with
  | Response.ok b => b.results.get? i
  | Response.err _ _ => none

def respOk : Response → Bool
  | Response.ok _ => true
  | Response.err _ _ => false

/-- Three failure modes of a layout read: no (truthy) layout path, the file
does not exist, or its contents do not parse -/
def layoutMissingOrBad (env : OsEnv) (fs : FsState) (d : PageResult) : Prop :=
  d.layout_info_path = none ∨
  (∃ p, d.layout_info_path = some p ∧ pathTruthy p = false) ∨
  (∃ p, d.layout_info_path = some p ∧ existsIn env fs p = false) ∨
  (∃ p m, d.layout_info_path = some p ∧ env.layoutContent p = LayoutFile.invalid m)

def validUpload : Option Upload → Bool
  | none => false
  | some u => !falsyName u.filename && !u.content.isEmpty

theorem bindM_eq {α β : Type} (x : M α) (f : α → M β) (w : World) :
    (x >>= f) w = match x w with
      | (Except.ok a, w1) => f a w1
      | (Except.error e, w1) => (Except.error e, w1) := rfl

theorem pureM_eq {α : Type} (a : α) (w : World) :
    (pure a : M α) w = (Except.ok a, w) := rfl

theorem readLayout_eq (env : OsEnv) (d : PageResult) (w : World) :
    readLayout env d w = (Except.ok (lookupLayout env w.fs d), w) := by
  unfold readLayout lookupLayout
  cases h : d.layout_info_path with
  | none => simp [pureM_eq]
  | some p =>
    by_cases ht : pathTruthy p
    · simp [ht, bindM_eq, osExists, pureM_eq]
      by_cases he : existsIn env w.fs p
      · simp [he]
        cases env.layoutContent p <;> simp [pureM_eq]
      · simp [he, pureM_eq]
    · simp [ht, pureM_eq]

theorem forM_remove_clears (env : OsEnv) (henv : ∀ p, env.removeOk p = true) :
    ∀ (l : List String), l.Nodup → ∀ (w : World),
      w.fs.outDirLive = true → w.fs.outFiles = l →
      (l.forM (fun n => osRemove env (FPath.outFile n))) w
        = (Except.ok (), { w with fs := { w.fs with outFiles := [] } }) := by
  intro l
  induction l with
  | nil =>
    intro _ w _ hof
    cases w with
    | mk fs pc fp =>
      cases fs
      simp_all [List.forM, pureM_eq]
  | cons n t ih =>
    intro hnd w hlive hof
    have hne : ¬ t.contains n := by
      simp only [List.nodup_cons] at hnd
      simpa using hnd.1
    have hnd2 : t.Nodup := by
      simp only [List.nodup_cons] at hnd
      exact hnd.2
    simp only [List.forM]
    rw [bindM_eq]
    have hrm : osRemove env (FPath.outFile n) w
        = (Except.ok (), { w with fs := { w.fs with outFiles := t } }) := by
      unfold osRemove
      have hex : existsIn env w.fs (FPath.outFile n) = true := by
        simp [existsIn, hlive, hof]
      rw [if_pos hex, henv]
      simp [hof, List.erase_cons_head]
    rw [hrm]
    have := ih hnd2 { w with fs := { w.fs with outFiles := t } } (by simpa using hlive) rfl
    simpa using this

theorem cleanup_clears (env : OsEnv) (henv : ∀ p, env.removeOk p = true)
    (efs : List String) (pc fp : Nat) :
    cleanup env ⟨stagedFs efs, pc, fp⟩
      = (Except.ok (), ⟨initFs, pc, fp⟩) := by
  have hloop := forM_remove_clears env henv efs.dedup (List.nodup_dedup efs)
    ⟨⟨false, false, true, efs.dedup⟩, pc, fp⟩ rfl rfl
  unfold cleanup
  rw [bindM_eq]
  rw [show osExists env FPath.tempFile ⟨stagedFs efs, pc, fp⟩ =
      (Except.ok true, ⟨stagedFs efs, pc, fp⟩)
    from by simp [osExists, existsIn, stagedFs]]
  simp only []
  simp only [ite_true]
  rw [bindM_eq]
  rw [show osRemove env FPath.tempFile ⟨stagedFs efs, pc, fp⟩ =
      (Except.ok (), ⟨⟨true, false, true, efs.dedup⟩, pc, fp⟩)
    from by
      unfold osRemove
      rw [if_pos (by simp [existsIn, stagedFs]), henv]
      simp [stagedFs]]
  simp only []
  rw [bindM_eq]
  rw [show osExistsTempDir ⟨⟨true, false, true, efs.dedup⟩, pc, fp⟩ =
      (Except.ok true, ⟨⟨true, false, true, efs.dedup⟩, pc, fp⟩) from rfl]
  simp only []
  simp only [ite_true]
  rw [bindM_eq]
  rw [show osRmdirTempDir ⟨⟨true, false, true, efs.dedup⟩, pc, fp⟩ =
      (Except.ok (), ⟨⟨false, false, true, efs.dedup⟩, pc, fp⟩)
    from by unfold osRmdirTempDir; simp]
  simp only []
  rw [bindM_eq]
  rw [show osExistsOutDir ⟨⟨false, false, true, efs.dedup⟩, pc, fp⟩ =
      (Except.ok true, ⟨⟨false, false, true, efs.dedup⟩, pc, fp⟩) from rfl]
  simp only []
  simp only [ite_true]
  rw [bindM_eq]
  rw [show osListOut ⟨⟨false, false, true, efs.dedup⟩, pc, fp⟩ =
      (Except.ok efs.dedup, ⟨⟨false, false, true, efs.dedup⟩, pc, fp⟩)
    from by unfold osListOut; simp]
  simp only []
  rw [bindM_eq]
  rw [show (efs.dedup.forM fun n => osRemove env (FPath.outFile n))
        ⟨⟨false, false, true, efs.dedup⟩, pc, fp⟩ =
      (Except.ok (), ⟨⟨false, false, true, []⟩, pc, fp⟩)
    from by simpa using hloop]
  simp only []
  unfold osRmdirOutDir
  simp [initFs]

theorem assemble_eq (env : OsEnv) :
    ∀ (ds : List PageResult) (acc : List PageOut) (w : World),
      (ds.foldlM (fun acc r => do
          let fli ← readLayout env r
          pure (acc ++ [(⟨r.page_no, fli⟩ : PageOut)])) acc) w
        = (Except.ok (acc ++ ds.map
            (fun r => { page_no := r.page_no,
                        full_layout_info := lookupLayout env w.fs r })), w) := by
  intro ds
  induction ds with
  | nil => intro acc w; simp [List.foldlM, pureM_eq]
  | cons d t ih =>
    intro acc w
    simp only [List.foldlM]
    rw [bindM_eq, bindM_eq, readLayout_eq]
    simp only []
    rw [ih]
    simp

theorem nomEnv_writeOutcome (e : EngineResult) (f : List String)
    (l : FPath → LayoutFile) (x : List String) :
    (nomEnv e f l x).writeOutcome = WriteOutcome.ok := rfl

theorem nomEnv_engine (e : EngineResult) (f : List String)
    (l : FPath → LayoutFile) (x : List String) :
    (nomEnv e f l x).engine = e := rfl

theorem nomEnv_engineFiles (e : EngineResult) (f : List String)
    (l : FPath → LayoutFile) (x : List String) :
    (nomEnv e f l x).engineFiles = f := rfl

theorem nomEnv_removeOk (e : EngineResult) (f : List String)
    (l : FPath → LayoutFile) (x : List String) (p : FPath) :
    (nomEnv e f l x).removeOk p = true := rfl

theorem parse_pdf_nom (eng : EngineResult) (efs : List String)
    (lay : FPath → LayoutFile) (exf : List String) (pm : String) (fp : Bool)
    (nm : String) (c : List Nat) (hnm : nm.isEmpty = false)
    (hext : extOfName nm = ".pdf") (hc : c.isEmpty = false) :
    parse_pdf (nomEnv eng efs lay exf) (some ⟨some nm, c⟩) pm fp initWorld
      = (pdfOutcome eng efs lay exf, ⟨initFs, 1, c.length⟩) := by
  have hcl := cleanup_clears (nomEnv eng efs lay exf) (fun p => rfl) efs 1 c.length
  simp only [stagedFs] at hcl
  have hasm := assemble_eq (nomEnv eng efs lay exf)
  cases eng with
  | raises m =>
    unfold parse_pdf parse_pdf_body tryCatch tryFinally pdfOutcome
    simp only [bindM_eq, pureM_eq, raiseE, readF, seek0, osMkTempDir,
      osWriteUpload, osMkOutDir, osListOut, callEngine, falsyName, initWorld,
      initFs, strOf, hnm, hext, hc, Option.getD, List.drop_zero,
      List.nil_append, List.forM, nomEnv_writeOutcome, nomEnv_engine,
      nomEnv_engineFiles, hcl, Bool.false_eq_true, if_false, ite_false,
      ite_true, ne_eq, not_true_eq_false, List.isEmpty_nil]
  | returns ds =>
    unfold parse_pdf parse_pdf_body tryCatch tryFinally pdfOutcome
    simp only [bindM_eq, pureM_eq, raiseE, readF, seek0, osMkTempDir,
      osWriteUpload, osMkOutDir, osListOut, callEngine, falsyName, initWorld,
      initFs, strOf, hnm, hext, hc, Option.getD, List.drop_zero,
      List.nil_append, List.forM, nomEnv_writeOutcome, nomEnv_engine,
      nomEnv_engineFiles, hasm, hcl, stagedFs, Bool.false_eq_true, if_false,
      ite_false, ite_true, ne_eq, not_true_eq_false, List.isEmpty_nil,
      List.nil_append]

/-- Value of `str()` on the re-wrapped image-endpoint parser error. -/
theorem wrap_parser_msg (m : String) :
    toString (500 : Nat) ++ ": " ++ ("Parser error: " ++ m)
      = "500: Parser error: " ++ m := by
  rw [show toString (500 : Nat) ++ ": " = "500: " from rfl,
    ← String.append_assoc,
    show "500: " ++ "Parser error: " = "500: Parser error: " from rfl]

theorem parse_image_nom (eng : EngineResult) (efs : List String)
    (lay : FPath → LayoutFile) (exf : List String) (pm : String) (fp : Bool)
    (nm : String) (c : List Nat) (hnm : nm.isEmpty = false)
    (hext : imageExts.contains (extOfName nm) = true) (hc : c.isEmpty = false) :
    parse_image (nomEnv eng efs lay exf) (some ⟨some nm, c⟩) pm fp initWorld
      = (imageOutcome eng efs lay exf, ⟨initFs, 1, c.length⟩) := by
  have hcl := cleanup_clears (nomEnv eng efs lay exf) (fun p => rfl) efs 1 c.length
  simp only [stagedFs] at hcl
  cases eng with
  | raises m =>
    unfold parse_image parse_image_body tryCatch tryFinally imageOutcome
    simp only [bindM_eq, pureM_eq, raiseE, readF, seek0, osMkTempDir,
      osWriteUpload, osExists, existsIn, osMkOutDir, osListOut, callEngine,
      falsyName, initWorld, initFs, strOf, hnm, hext, hc, Option.getD,
      List.drop_zero, List.nil_append, List.forM, nomEnv_writeOutcome,
      nomEnv_engine, nomEnv_engineFiles, hcl, Bool.false_eq_true, if_false,
      ite_false, ite_true, ne_eq, not_true_eq_false, List.isEmpty_nil,
      Bool.not_true, Bool.not_false, wrap_parser_msg]
  | returns ds =>
    cases ds with
    | nil =>
      unfold parse_image parse_image_body tryCatch tryFinally imageOutcome
      simp only [bindM_eq, pureM_eq, raiseE, readF, seek0, osMkTempDir,
        osWriteUpload, osExists, existsIn, osMkOutDir, osListOut, callEngine,
        falsyName, initWorld, initFs, strOf, hnm, hext, hc, Option.getD,
        List.drop_zero, List.nil_append, List.forM, nomEnv_writeOutcome,
        nomEnv_engine, nomEnv_engineFiles, hcl, Bool.false_eq_true, if_false,
        ite_false, ite_true, ne_eq, not_true_eq_false, List.isEmpty_nil,
        Bool.not_true, Bool.not_false, wrap_parser_msg]
      rfl
    | cons d t =>
      have hrl := readLayout_eq (nomEnv (EngineResult.returns (d :: t)) efs lay exf)
      unfold parse_image parse_image_body tryCatch tryFinally imageOutcome
      simp only [bindM_eq, pureM_eq, raiseE, readF, seek0, osMkTempDir,
        osWriteUpload, osExists, existsIn, osMkOutDir, osListOut, callEngine,
        falsyName, initWorld, initFs, strOf, hnm, hext, hc, Option.getD,
        List.drop_zero, List.nil_append, List.forM, nomEnv_writeOutcome,
        nomEnv_engine, nomEnv_engineFiles, hrl, hcl, stagedFs,
        Bool.false_eq_true, if_false, ite_false, ite_true, ne_eq,
        not_true_eq_false, List.isEmpty_nil, Bool.not_true, Bool.not_false]

/-- C1 (code bug): the spec and the raised exceptions intend validation
failures to surface as status 400 with the message verbatim, but each
handler's blanket `except Exception` catches its own `HTTPException(400, msg)`
and re-raises `HTTPException(500, str(e))`, so every validation failure is
served as status 500 with detail `"400: " ++ msg`.  Evaluated here on each
validation-failure kind of the three endpoints. -/
theorem C1_validation_eval :
    (parseImageRoute envProbe (some ⟨some "doc.txt", [1]⟩) defaultPm false).1
      = Response.err 500 "400: Invalid image format. Supported: .jpg, .jpeg, .png" ∧
    (parsePdfRoute envProbe (some ⟨some "doc.txt", [1]⟩) defaultPm false).1
      = Response.err 500 "400: Invalid PDF format. Only .pdf files accepted" ∧
    (parseFileRoute envProbe (some ⟨some "doc.xyz", [1]⟩) defaultPm false).1
      = Response.err 500 "400: Unsupported file format" ∧
    (parseImageRoute envProbe none defaultPm false).1
      = Response.err 500 "400: No file uploaded" ∧
    (parseImageRoute envProbe (some ⟨some "a.jpg", []⟩) defaultPm false).1
      = Response.err 500 "400: Uploaded file is empty" ∧
    (parseImageRoute envProbe (some ⟨none, [1]⟩) defaultPm false).1
      = Response.err 500 "400: Missing filename" :=
  ⟨by rfl, by rfl, by rfl, by rfl, by rfl, by rfl⟩

/-- C8 (code bug): for uploads whose extension is outside the endpoint's
allow-list, the parser is indeed never invoked (`parserCalls = 0`), but the
response is a 500 carrying the wrapped 400 message rather than a client
error, for the same blanket-handler reason as C1. -/
theorem C8_invalid_ext_eval :
    ((parseImageRoute envProbe (some ⟨some "doc.txt", [1]⟩) defaultPm false).1
        = Response.err 500 "400: Invalid image format. Supported: .jpg, .jpeg, .png" ∧
      (parseImageRoute envProbe (some ⟨some "doc.txt", [1]⟩) defaultPm false).2.parserCalls = 0) ∧
    ((parsePdfRoute envProbe (some ⟨some "doc.txt", [1]⟩) defaultPm false).1
        = Response.err 500 "400: Invalid PDF format. Only .pdf files accepted" ∧
      (parsePdfRoute envProbe (some ⟨some "doc.txt", [1]⟩) defaultPm false).2.parserCalls = 0) ∧
    ((parseFileRoute envProbe (some ⟨some "doc.xyz", [1]⟩) defaultPm false).1
        = Response.err 500 "400: Unsupported file format" ∧
      (parseFileRoute envProbe (some ⟨some "doc.xyz", [1]⟩) defaultPm false).2.parserCalls = 0) :=
  ⟨⟨by rfl, by rfl⟩, ⟨by rfl, by rfl⟩, ⟨by rfl, by rfl⟩⟩

/-- C2 counterexample: when writing the upload copy raises (for instance the
disk is full), the exception fires before the `try/finally` of lines 97-132
is entered, so the input temp directory created at line 59 survives the
request: the claimed unconditional cleanup fails on this input. -/
theorem C2_counterexample :
    (parseImageRoute envWriteFail (some ⟨some "a.jpg", [1]⟩) defaultPm false).1
      = Response.err 500 "No space left on device" ∧
    (parseImageRoute envWriteFail (some ⟨some "a.jpg", [1]⟩) defaultPm false).2.fs.tempDirLive
      = true :=
  ⟨by rfl, by rfl⟩

/-- C4 counterexample: on `/parse/pdf` an engine exception with message
`"probe"` is served with detail exactly `"probe"`, not
`"Parser error: probe"`: the pdf handler has no inner handler adding the
prefix, so the claim's detail format is wrong for the pdf endpoint. -/
theorem C4_counterexample :
    (parsePdfRoute envProbe (some ⟨some "a.pdf", [1]⟩) defaultPm false).1
      = Response.err 500 "probe" ∧
    ("probe" : String) ≠ "Parser error: probe" :=
  ⟨by rfl, by decide⟩

/-- C4 (amended): when the engine raises with message `m` on a valid upload
in a nominal environment, `/parse/image` answers 500 with detail
`"500: Parser error: " ++ m` (the inner wrap is re-wrapped by the blanket
handler), while `/parse/pdf` answers 500 with detail exactly `m`. -/
theorem C4_parser_error_amended (m : String) (efs : List String)
    (lay : FPath → LayoutFile) (exf : List String) (pm : String) (fp : Bool)
    (nm : String) (c : List Nat)
    (hnm : nm.isEmpty = false) (hc : c.isEmpty = false) :
    (imageExts.contains (extOfName nm) = true →
      (parseImageRoute (nomEnv (EngineResult.raises m) efs lay exf)
          (some ⟨some nm, c⟩) pm fp).1
        = Response.err 500 ("500: Parser error: " ++ m)) ∧
    (extOfName nm = ".pdf" →
      (parsePdfRoute (nomEnv (EngineResult.raises m) efs lay exf)
          (some ⟨some nm, c⟩) pm fp).1
        = Response.err 500 m) := by
  refine ⟨fun hext => ?_, fun hext => ?_⟩
  · unfold parseImageRoute runRoute
    rw [parse_image_nom (EngineResult.raises m) efs lay exf pm fp nm c hnm hext hc]
    rfl
  · unfold parsePdfRoute runRoute
    rw [parse_pdf_nom (EngineResult.raises m) efs lay exf pm fp nm c hnm hext hc]
    rfl

/-- C2 (amended): for a valid upload in an environment where the upload copy
is written successfully and the removal operations themselves succeed, both
`/parse/image` and `/parse/pdf` end with the scratch filesystem fully
cleared, (whatever the engine does: raise or return any descriptor list);
the guarantee does not extend to staging failures, per the counterexample. -/
theorem C2_cleanup_amended (eng : EngineResult) (efs : List String)
    (lay : FPath → LayoutFile) (exf : List String) (pm : String) (fp : Bool)
    (nm : String) (c : List Nat)
    (hnm : nm.isEmpty = false) (hc : c.isEmpty = false) :
    (imageExts.contains (extOfName nm) = true →
      (parseImageRoute (nomEnv eng efs lay exf) (some ⟨some nm, c⟩) pm fp).2.fs
        = initFs) ∧
    (extOfName nm = ".pdf" →
      (parsePdfRoute (nomEnv eng efs lay exf) (some ⟨some nm, c⟩) pm fp).2.fs
        = initFs) := by
  refine ⟨fun hext => ?_, fun hext => ?_⟩
  · unfold parseImageRoute runRoute
    rw [parse_image_nom eng efs lay exf pm fp nm c hnm hext hc]
    cases eng with
    | raises m => rfl
    | returns ds =>
      cases ds with
      | nil => rfl
      | cons d t => rfl
  · unfold parsePdfRoute runRoute
    rw [parse_pdf_nom eng efs lay exf pm fp nm c hnm hext hc]
    cases eng with
    | raises m => rfl
    | returns ds => rfl

/-- C3 counterexample: a run whose parse and assembly succeed
(`Response.ok` with one page under an environment whose removals succeed)
turns into `Response.err 500 "Permission denied"` when `os.remove` of an
output file fails during the `finally` block: the cleanup error replaces
the computed success. -/
theorem C3_counterexample :
    (parsePdfRoute envPdfOk (some ⟨some "a.pdf", [1]⟩) defaultPm false).1
      = Response.ok ⟨true, 1, [⟨some 0, JsonVal.obj []⟩]⟩ ∧
    (parsePdfRoute (envPdfRmFail "Permission denied") (some ⟨some "a.pdf", [1]⟩)
        defaultPm false).1
      = Response.err 500 "Permission denied" :=
  ⟨by rfl, by rfl⟩

/-- C3 (amended): the `finally` blocks contain no error suppression, so an
exception raised while removing an output file during cleanup supersedes
the already-computed success result; the endpoint then answers 500 with the
cleanup exception's message.  The first conjunct shows the same request
succeeds when cleanup works; the second shows the cleanup failure's message
becoming the response. -/
theorem C3_cleanup_error_propagates (msg : String) (pm : String) (fp : Bool) :
    (parsePdfRoute envPdfOk (some ⟨some "a.pdf", [1]⟩) pm fp).1
      = Response.ok ⟨true, 1, [⟨some 0, JsonVal.obj []⟩]⟩ ∧
    (parsePdfRoute (envPdfRmFail msg) (some ⟨some "a.pdf", [1]⟩) pm fp).1
      = Response.err 500 msg :=
  ⟨by rfl, by rfl⟩

/-- C6 counterexample: a valid image upload for which the engine returns two
descriptors yields a 200 response with `total_pages = 2`, not the claimed
`total_pages == 1` (the handler reports `len(results)`). -/
theorem C6_counterexample :
    (parseImageRoute envImg2 (some ⟨some "a.jpg", [1]⟩) defaultPm false).1
      = Response.ok ⟨true, 2, [⟨some 0, emptyObj⟩]⟩ ∧
    (2 : Nat) ≠ 1 :=
  ⟨by rfl, by decide⟩

theorem image_returns_run (d : PageResult) (t : List PageResult)
    (efs : List String) (lay : FPath → LayoutFile) (exf : List String)
    (pm : String) (fp : Bool) (nm : String) (c : List Nat)
    (hnm : nm.isEmpty = false)
    (hext : imageExts.contains (extOfName nm) = true)
    (hc : c.isEmpty = false) :
    (parseImageRoute (nomEnv (EngineResult.returns (d :: t)) efs lay exf)
        (some ⟨some nm, c⟩) pm fp).1
      = Response.ok ⟨true, (d :: t).length,
          [⟨some 0, lookupLayout (nomEnv (EngineResult.returns (d :: t)) efs lay exf)
              (stagedFs efs) d⟩]⟩ := by
  unfold parseImageRoute runRoute
  rw [parse_image_nom (EngineResult.returns (d :: t)) efs lay exf pm fp nm c hnm hext hc]
  rfl

/-- C6 (amended): for a valid image upload on which the engine returns a
non-empty descriptor list, `/parse/image` answers 200 with `success`,
`total_pages` equal to the number of descriptors returned (hence 1 exactly
when the engine returns one descriptor), and a single results entry whose
`page_no` is 0. -/
theorem C6_image_success_amended (d : PageResult) (t : List PageResult)
    (efs : List String) (lay : FPath → LayoutFile) (exf : List String)
    (pm : String) (fp : Bool) (nm : String) (c : List Nat)
    (hnm : nm.isEmpty = false)
    (hext : imageExts.contains (extOfName nm) = true)
    (hc : c.isEmpty = false) :
    (parseImageRoute (nomEnv (EngineResult.returns (d :: t)) efs lay exf)
        (some ⟨some nm, c⟩) pm fp).1
      = Response.ok ⟨true, (d :: t).length,
          [⟨some 0, lookupLayout (nomEnv (EngineResult.returns (d :: t)) efs lay exf)
              (stagedFs efs) d⟩]⟩ :=
  image_returns_run d t efs lay exf pm fp nm c hnm hext hc

theorem pdf_returns_run (ds : List PageResult) (efs : List String)
    (lay : FPath → LayoutFile) (exf : List String) (pm : String) (fp : Bool)
    (nm : String) (c : List Nat)
    (hnm : nm.isEmpty = false) (hext : extOfName nm = ".pdf")
    (hc : c.isEmpty = false) :
    (parsePdfRoute (nomEnv (EngineResult.returns ds) efs lay exf)
        (some ⟨some nm, c⟩) pm fp).1
      = Response.ok ⟨true, ds.length, ds.map (fun r =>
          ⟨r.page_no, lookupLayout (nomEnv (EngineResult.returns ds) efs lay exf)
            (stagedFs efs) r⟩)⟩ := by
  unfold parsePdfRoute runRoute
  rw [parse_pdf_nom (EngineResult.returns ds) efs lay exf pm fp nm c hnm hext hc]
  rfl

/-- C7 (confirmed): when the engine returns descriptors `ds` on a valid pdf
upload, the response is 200 with `success`, `total_pages = ds.length`, and
`results` is `ds` mapped in order to entries whose `page_no` is the engine's
`page_no` for that descriptor; entry `i` corresponds to descriptor `i`. -/
theorem C7_pdf_order (ds : List PageResult) (efs : List String)
    (lay : FPath → LayoutFile) (exf : List String) (pm : String) (fp : Bool)
    (nm : String) (c : List Nat)
    (hnm : nm.isEmpty = false) (hext : extOfName nm = ".pdf")
    (hc : c.isEmpty = false) :
    (parsePdfRoute (nomEnv (EngineResult.returns ds) efs lay exf)
        (some ⟨some nm, c⟩) pm fp).1
      = Response.ok ⟨true, ds.length, ds.map (fun r =>
          ⟨r.page_no, lookupLayout (nomEnv (EngineResult.returns ds) efs lay exf)
            (stagedFs efs) r⟩)⟩ ∧
    (∀ (i : Nat) (d : PageResult), ds.get? i = some d →
      respPage (parsePdfRoute (nomEnv (EngineResult.returns ds) efs lay exf)
          (some ⟨some nm, c⟩) pm fp).1 i
        = some ⟨d.page_no, lookupLayout (nomEnv (EngineResult.returns ds) efs lay exf)
            (stagedFs efs) d⟩) := by
  have hmain := pdf_returns_run ds efs lay exf pm fp nm c hnm hext hc
  refine ⟨hmain, fun i d hd => ?_⟩
  rw [hmain]
  unfold respPage
  simp only [List.get?_eq_getElem?] at hd
  simp [List.getElem?_map, hd]

theorem lookupLayout_bad (env : OsEnv) (fs : FsState) (d : PageResult)
    (h : layoutMissingOrBad env fs d) : lookupLayout env fs d = emptyObj := by
  unfold lookupLayout
  rcases h with h | ⟨p, hp, ht⟩ | ⟨p, hp, he⟩ | ⟨p, m, hp, hi⟩
  · rw [h]
  · rw [hp]; simp [ht]
  · rw [hp]
    by_cases ht : pathTruthy p
    · simp [ht, he]
    · simp [ht]
  · rw [hp]
    by_cases ht : pathTruthy p
    · by_cases he : existsIn env fs p
      · simp [ht, he, hi]
      · simp [ht, he]
    · simp [ht]

/-- C5 (confirmed): for any descriptor whose layout-info path is absent (or
falsy), whose file does not exist, or whose contents fail to parse, the
request still succeeds and that page's `full_layout_info` is the empty
object: shown for the single descriptor `/parse/image` reads and for every
position `i` of a `/parse/pdf` run. -/
theorem C5_bad_layout_empty (ds : List PageResult) (efs : List String)
    (lay : FPath → LayoutFile) (exf : List String) (pm : String) (fp : Bool)
    (nm : String) (c : List Nat)
    (hnm : nm.isEmpty = false) (hc : c.isEmpty = false) :
    (∀ (d : PageResult) (t : List PageResult),
      imageExts.contains (extOfName nm) = true →
      layoutMissingOrBad (nomEnv (EngineResult.returns (d :: t)) efs lay exf)
        (stagedFs efs) d →
      (parseImageRoute (nomEnv (EngineResult.returns (d :: t)) efs lay exf)
          (some ⟨some nm, c⟩) pm fp).1
        = Response.ok ⟨true, (d :: t).length, [⟨some 0, emptyObj⟩]⟩) ∧
    (extOfName nm = ".pdf" →
      respOk (parsePdfRoute (nomEnv (EngineResult.returns ds) efs lay exf)
          (some ⟨some nm, c⟩) pm fp).1 = true ∧
      (∀ (i : Nat) (d : PageResult), ds.get? i = some d →
        layoutMissingOrBad (nomEnv (EngineResult.returns ds) efs lay exf)
          (stagedFs efs) d →
        respPage (parsePdfRoute (nomEnv (EngineResult.returns ds) efs lay exf)
            (some ⟨some nm, c⟩) pm fp).1 i
          = some ⟨d.page_no, emptyObj⟩)) := by
  constructor
  · intro d t hext hbad
    have h := image_returns_run d t efs lay exf pm fp nm c hnm hext hc
    rw [h, lookupLayout_bad _ _ _ hbad]
  · intro hext
    have hmain := pdf_returns_run ds efs lay exf pm fp nm c hnm hext hc
    refine ⟨by rw [hmain]; rfl, fun i d hd hbad => ?_⟩
    rw [hmain]
    unfold respPage
    simp only [List.get?_eq_getElem?] at hd
    simp [List.getElem?_map, hd, lookupLayout_bad _ _ _ hbad]

/-- C10 (confirmed): if the engine returns an empty descriptor list for a
valid image upload, `/parse/image` does not answer a zero-page success:
indexing `results[0]` raises, the inner handler wraps it as a parser error,
and the response is the 500 shown; moreover a 200 answer is only possible
when the engine returned a non-empty descriptor list. -/
theorem C10_empty_results (efs : List String) (lay : FPath → LayoutFile)
    (exf : List String) (pm : String) (fp : Bool) (nm : String) (c : List Nat)
    (hnm : nm.isEmpty = false)
    (hext : imageExts.contains (extOfName nm) = true)
    (hc : c.isEmpty = false) :
    ((parseImageRoute (nomEnv (EngineResult.returns []) efs lay exf)
        (some ⟨some nm, c⟩) pm fp).1
      = Response.err 500 "500: Parser error: list index out of range") ∧
    (∀ (eng : EngineResult) (b : OkBody),
      (parseImageRoute (nomEnv eng efs lay exf) (some ⟨some nm, c⟩) pm fp).1
        = Response.ok b →
      ∃ d t, eng = EngineResult.returns (d :: t)) := by
  constructor
  · unfold parseImageRoute runRoute
    rw [parse_image_nom (EngineResult.returns []) efs lay exf pm fp nm c hnm hext hc]
    rfl
  · intro eng b hok
    cases eng with
    | raises m =>
      unfold parseImageRoute runRoute at hok
      rw [parse_image_nom (EngineResult.raises m) efs lay exf pm fp nm c hnm hext hc] at hok
      exact absurd hok (by simp [imageOutcome])
    | returns ds =>
      cases ds with
      | nil =>
        unfold parseImageRoute runRoute at hok
        rw [parse_image_nom (EngineResult.returns []) efs lay exf pm fp nm c hnm hext hc] at hok
        exact absurd hok (by simp [imageOutcome])
      | cons d t => exact ⟨d, t, rfl⟩

theorem strOf_http500 (d : String) :
    strOf (PyErr.http 500 d) = "500: " ++ d := by
  rw [show strOf (PyErr.http 500 d) = toString (500 : Nat) ++ ": " ++ d from rfl,
    show toString (500 : Nat) ++ ": " = "500: " from rfl]

/-- Shape fact: the pdf handler exits with a value or an `HTTPException(500, _)`. -/
theorem parse_pdf_shape (env : OsEnv) (file : Option Upload) (pm : String)
    (fp : Bool) (w : World) :
    (∃ b w1, parse_pdf env file pm fp w = (Except.ok b, w1)) ∨
    (∃ d w1, parse_pdf env file pm fp w
      = (Except.error (PyErr.http 500 d), w1)) := by
  unfold parse_pdf tryCatch
  cases hb : parse_pdf_body env file pm fp w with
  | mk r w1 =>
    cases r with
    | ok b => exact Or.inl ⟨b, w1, rfl⟩
    | error e => exact Or.inr ⟨strOf e, w1, rfl⟩

/-- Dispatch fact: a `.pdf` upload that passes the dispatcher's own validation is handed to
the pdf handler at a pristine world (the cursor was reset), and the
dispatcher's catch-all re-wraps any exception the pdf handler raises -/
theorem parse_file_pdf_dispatch (env : OsEnv) (u : Upload) (pm : String)
    (fp : Bool) (hfn : falsyName u.filename = false)
    (hce : u.content.isEmpty = false)
    (hext : extOfName (u.filename.getD "") = ".pdf") :
    parse_file env (some u) pm fp initWorld
      = match parse_pdf env (some u) pm fp initWorld with
        | (Except.ok b, w1) => (Except.ok b, w1)
        | (Except.error e, w1) =>
          (Except.error (PyErr.http 500 (strOf e)), w1) := by
  unfold parse_file parse_file_body tryCatch
  simp only [bindM_eq, pureM_eq, raiseE, readF, seek0, initWorld,
    initFs, hfn, hce, hext, List.drop_zero, Bool.false_eq_true,
    if_false, ite_false, ite_true, ne_eq, not_true_eq_false]
  cases hb : parse_pdf env (some u) pm fp
      ⟨⟨false, false, false, []⟩, 0, 0⟩ with
  | mk r w1 => cases r <;> rfl

/-- C9 (amended): for a `.pdf` upload, `/parse/file` behaves identically to
`/parse/pdf` on uploads failing validation (the dispatcher's own identical
checks fire first) and on success; when the pdf handler fails after
validation it always fails with status 500, and `/parse/file` then answers
500 with the same detail prefixed by `"500: "`. -/
theorem C9_dispatch_amended (env : OsEnv) (file : Option Upload) (pm : String)
    (fp : Bool)
    (hext : ∀ u, file = some u → extOfName (u.filename.getD "") = ".pdf") :
    (validUpload file = false →
      (parseFileRoute env file pm fp).1 = (parsePdfRoute env file pm fp).1) ∧
    (validUpload file = true →
      (∀ b, (parsePdfRoute env file pm fp).1 = Response.ok b →
        (parseFileRoute env file pm fp).1 = Response.ok b) ∧
      (∀ d, (parsePdfRoute env file pm fp).1 = Response.err 500 d →
        (parseFileRoute env file pm fp).1 = Response.err 500 ("500: " ++ d)) ∧
      (∀ s d, (parsePdfRoute env file pm fp).1 = Response.err s d → s = 500)) := by
  cases file with
  | none =>
    refine ⟨fun _ => by rfl, fun hv => by simp [validUpload] at hv⟩
  | some u =>
    by_cases hfn : falsyName u.filename
    · refine ⟨fun _ => ?_, fun hv => ?_⟩
      · unfold parseFileRoute parsePdfRoute runRoute parse_file parse_pdf
          parse_file_body parse_pdf_body tryCatch
        simp only [bindM_eq, pureM_eq, raiseE, hfn, ite_true, ite_false]
      · simp [validUpload, hfn] at hv
    · by_cases hce : u.content.isEmpty
      · refine ⟨fun _ => ?_, fun hv => ?_⟩
        · unfold parseFileRoute parsePdfRoute runRoute parse_file parse_pdf
            parse_file_body parse_pdf_body tryCatch
          simp only [bindM_eq, pureM_eq, raiseE, readF, seek0,
            initWorld, initFs, hfn, hce, hext u rfl,
            List.drop_zero, Bool.false_eq_true, if_false, ite_false, ite_true,
            ne_eq, not_true_eq_false, Bool.not_true, Bool.not_false]
        · simp [validUpload, hfn, hce] at hv
      · have hdisp := parse_file_pdf_dispatch env u pm fp
          (by simpa using hfn) (by simpa using hce) (hext u rfl)
        refine ⟨fun hv => ?_, fun _ => ?_⟩
        · simp [validUpload, hfn, hce] at hv
        · rcases parse_pdf_shape env (some u) pm fp initWorld with
            ⟨b, w1, hb⟩ | ⟨d, w1, hb⟩
          · refine ⟨fun b2 h2 => ?_, fun d2 h2 => ?_, fun s d2 h2 => ?_⟩
            · unfold parseFileRoute runRoute
              rw [hdisp, hb]
              unfold parsePdfRoute runRoute at h2
              rw [hb] at h2
              simpa using h2
            · unfold parsePdfRoute runRoute at h2
              rw [hb] at h2
              simp at h2
            · unfold parsePdfRoute runRoute at h2
              rw [hb] at h2
              simp at h2
          · refine ⟨fun b2 h2 => ?_, fun d2 h2 => ?_, fun s d2 h2 => ?_⟩
            · unfold parsePdfRoute runRoute at h2
              rw [hb] at h2
              simp at h2
            · unfold parseFileRoute runRoute
              rw [hdisp, hb]
              unfold parsePdfRoute runRoute at h2
              rw [hb] at h2
              simp only [Response.err.injEq] at h2
              simp [strOf_http500, h2.2]
            · unfold parsePdfRoute runRoute at h2
              rw [hb] at h2
              simp only [Response.err.injEq] at h2
              exact h2.1.symm

/-- C9 counterexample: for the same valid `.pdf` upload on which the engine
raises `"probe"`, `/parse/pdf` answers detail `"probe"` while `/parse/file`
answers detail `"500: probe"` (the dispatcher's own catch-all re-wraps the
pdf handler's `HTTPException`), so behaviour is not byte-identical. -/
theorem C9_counterexample :
    (parsePdfRoute envProbe (some ⟨some "a.pdf", [1]⟩) defaultPm false).1
      = Response.err 500 "probe" ∧
    (parseFileRoute envProbe (some ⟨some "a.pdf", [1]⟩) defaultPm false).1
      = Response.err 500 "500: probe" ∧
    ("500: probe" : String) ≠ "probe" :=
  ⟨by rfl, by rfl, by decide⟩

theorem C2_witness :
    (parseImageRoute (nomEnv (EngineResult.raises "boom") [] probeLay [])
        (some ⟨some "a.jpg", [1]⟩) defaultPm false).2.fs = initFs ∧
    (parsePdfRoute (nomEnv (EngineResult.raises "boom") [] probeLay [])
        (some ⟨some "a.pdf", [1]⟩) defaultPm false).2.fs = initFs :=
  ⟨(C2_cleanup_amended (EngineResult.raises "boom") [] probeLay [] defaultPm
      false "a.jpg" [1] (by decide) (by decide)).1 (by decide),
   (C2_cleanup_amended (EngineResult.raises "boom") [] probeLay [] defaultPm
      false "a.pdf" [1] (by decide) (by decide)).2 (by decide)⟩

theorem C4_witness :
    (parseImageRoute (nomEnv (EngineResult.raises "boom") [] probeLay [])
        (some ⟨some "a.jpg", [1]⟩) defaultPm false).1
      = Response.err 500 ("500: Parser error: " ++ "boom") ∧
    (parsePdfRoute (nomEnv (EngineResult.raises "boom") [] probeLay [])
        (some ⟨some "a.pdf", [1]⟩) defaultPm false).1
      = Response.err 500 "boom" :=
  ⟨(C4_parser_error_amended "boom" [] probeLay [] defaultPm false "a.jpg" [1]
      (by decide) (by decide)).1 (by decide),
   (C4_parser_error_amended "boom" [] probeLay [] defaultPm false "a.pdf" [1]
      (by decide) (by decide)).2 (by decide)⟩

theorem C5_witness :
    (parseImageRoute (nomEnv (EngineResult.returns [⟨none, none⟩]) [] probeLay [])
        (some ⟨some "a.jpg", [1]⟩) defaultPm false).1
      = Response.ok ⟨true, 1, [⟨some 0, emptyObj⟩]⟩ ∧
    respPage (parsePdfRoute (nomEnv (EngineResult.returns [⟨none, some 3⟩]) []
        probeLay []) (some ⟨some "a.pdf", [1]⟩) defaultPm false).1 0
      = some ⟨some 3, emptyObj⟩ :=
  ⟨(C5_bad_layout_empty [] [] probeLay [] defaultPm false "a.jpg" [1]
      (by decide) (by decide)).1 ⟨none, none⟩ [] (by decide) (Or.inl rfl),
   ((C5_bad_layout_empty [⟨none, some 3⟩] [] probeLay [] defaultPm false
      "a.pdf" [1] (by decide) (by decide)).2 (by decide)).2 0 ⟨none, some 3⟩
      rfl (Or.inl rfl)⟩

theorem C6_witness :
    (parseImageRoute (nomEnv (EngineResult.returns [⟨none, some 0⟩]) [] probeLay [])
        (some ⟨some "a.jpg", [1]⟩) defaultPm false).1
      = Response.ok ⟨true, 1,
          [⟨some 0, lookupLayout (nomEnv (EngineResult.returns [⟨none, some 0⟩])
              [] probeLay []) (stagedFs []) ⟨none, some 0⟩⟩]⟩ :=
  C6_image_success_amended ⟨none, some 0⟩ [] [] probeLay [] defaultPm false
    "a.jpg" [1] (by decide) (by decide) (by decide)

theorem C7_witness :
    (parsePdfRoute (nomEnv (EngineResult.returns [⟨none, some 0⟩, ⟨none, some 1⟩])
        [] probeLay []) (some ⟨some "a.pdf", [1]⟩) defaultPm false).1
      = Response.ok ⟨true, 2,
          [⟨none, some 0⟩, ⟨none, some 1⟩].map (fun r =>
            ⟨r.page_no, lookupLayout (nomEnv
              (EngineResult.returns [⟨none, some 0⟩, ⟨none, some 1⟩]) [] probeLay [])
              (stagedFs []) r⟩)⟩ ∧
    respPage (parsePdfRoute (nomEnv
        (EngineResult.returns [⟨none, some 0⟩, ⟨none, some 1⟩]) [] probeLay [])
        (some ⟨some "a.pdf", [1]⟩) defaultPm false).1 1
      = some ⟨some 1, lookupLayout (nomEnv
          (EngineResult.returns [⟨none, some 0⟩, ⟨none, some 1⟩]) [] probeLay [])
          (stagedFs []) ⟨none, some 1⟩⟩ :=
  ⟨(C7_pdf_order [⟨none, some 0⟩, ⟨none, some 1⟩] [] probeLay [] defaultPm
      false "a.pdf" [1] (by decide) (by decide) (by decide)).1,
   (C7_pdf_order [⟨none, some 0⟩, ⟨none, some 1⟩] [] probeLay [] defaultPm
      false "a.pdf" [1] (by decide) (by decide) (by decide)).2 1 ⟨none, some 1⟩
      rfl⟩

theorem C9_witness :
    (parseFileRoute envProbe (some ⟨some "a.pdf", [1]⟩) defaultPm false).1
      = Response.err 500 ("500: " ++ "probe") :=
  ((C9_dispatch_amended envProbe (some ⟨some "a.pdf", [1]⟩) defaultPm false
      (by intro u h; cases h; decide)).2 (by decide)).2.1 "probe" (by rfl)

theorem C10_witness :
    (parseImageRoute (nomEnv (EngineResult.returns []) [] probeLay [])
        (some ⟨some "a.jpg", [1]⟩) defaultPm false).1
      = Response.err 500 "500: Parser error: list index out of range" :=
  (C10_empty_results [] probeLay [] defaultPm false "a.jpg" [1]
      (by decide) (by decide) (by decide)).1

end DotsApi
